import Mathlib

/-!
Verification of the `tf.data` pipeline-construction layer
(`tensorflow/python/data/ops/dataset_ops.py`) against its natural-language
specification.

The Python source is shallowly embedded: pure construction-time logic becomes
Lean functions, fallible construction returns `Except`, and the stateful
generator multiplexer (`Dataset._GeneratorState`) becomes explicit state
passing over an association-list registry.  Where the behaviour of a claim
depends on code of the repository that is not part of
`dataset_ops.py` (the `tensor_shape.py` shape algebra and the native
execution kernels), the corresponding definition is modelled from the spec
and marked as such in its doc comment.
-/

/-- Element type tags (`tf.DType`).  Only the identity of the tag matters for
the construction-time logic verified here. -/
inductive DType where
  | int32
  | int64
  | float32
  | float64
  | boolT
  | stringT
deriving DecidableEq, Repr

/-- Shape descriptor (`tf.TensorShape`): either an unknown rank
(`TensorShape(None)`, used by the source for "unconstrained" shapes) or a list
of dimensions, each a concrete size or unknown (`None`). -/
structure TensorShape where
  dims : Option (List (Option Nat))
deriving DecidableEq, Repr

/-- Shape of a scalar (`tensor_shape.scalar()`): known rank 0. -/
def scalarShape : TensorShape := ⟨some []⟩

/-- Shape of a concrete (fully known) array shape, as produced by a numpy
array in `generator_py_func`. -/
def concreteShape (l : List Nat) : TensorShape := ⟨some (l.map some)⟩

/-- Compatibility of a single dimension pair: equal, or at least one side
unknown. -/
def dimCompatible : Option Nat → Option Nat → Bool
  | some a, some b => a == b
  | _, _ => true

/-- Modelled from the spec: `TensorShape.is_compatible_with`
(`tensor_shape.py` is not under `src/`).  Spec §3: compatible iff same rank
and each dimension pair is equal or has at least one unknown side; a shape of
wholly unknown rank (which the source calls "unconstrainted") is compatible
with every shape. -/
def shapeCompatible (s t : TensorShape) : Bool :=
  match s.dims, t.dims with
  | none, _ => true
  | _, none => true
  | some ds, some dt =>
      ds.length == dt.length && (List.zip ds dt).all (fun p => dimCompatible p.1 p.2)

/-- Specificity (refinement) order on shapes: `shapeRefines s t` holds when
`s` is at least as specific as `t`, i.e. `t` generalizes `s`: `t` has unknown
rank, or the ranks agree and every dimension of `t` is unknown or equal to
the corresponding dimension of `s`. -/
def shapeRefines (s t : TensorShape) : Bool :=
  match t.dims, s.dims with
  | none, _ => true
  | some _, none => false
  | some dt, some ds =>
      ds.length == dt.length && (List.zip ds dt).all (fun p => p.2 == none || p.2 == p.1)

/-- Merge of one dimension pair for `most_specific_compatible_shape`: keep a
dimension only when both sides know it and agree, otherwise widen to
unknown. -/
def mergeDim : Option Nat → Option Nat → Option Nat
  | some a, some b => if a == b then some a else none
  | _, _ => none

/-- Modelled from the spec: `TensorShape.most_specific_compatible_shape`
(`tensor_shape.py` is not under `src/`), the per-leaf shape merge used by
`ConcatenateDataset.output_shapes`.  Spec §4.2: the shape-merge of the two
shapes, widening to unknown on conflict; characterized below as the most
specific common generalization (least upper bound in the specificity
order). -/
def most_specific_compatible_shape (s t : TensorShape) : TensorShape :=
  match s.dims, t.dims with
  | some ds, some dt =>
      if ds.length = dt.length then
        ⟨some ((List.zip ds dt).map (fun p => mergeDim p.1 p.2))⟩
      else ⟨none⟩
  | _, _ => ⟨none⟩

/-- Construction-time error raised by the dataset constructors.  The Python
source raises `ValueError`; the spec files this error kind under
`InvalidArgument` (out-of-range static parameters). -/
inductive TFError where
  | invalidArgument (msg : String)
deriving DecidableEq, Repr

/-! ## RangeDataset construction (`RangeDataset._parse_args`, lines 1349-1363)

`_parse_args` dispatches on the number of positional arguments and stores
`start`/`stop`/`step` unvalidated; one argument means `start = 0, step = 1`,
two arguments mean `step = 1`.  No check of the step value is performed. -/

/-- Embedding of `RangeDataset._parse_args`: the argument list of
`Dataset.range(*args)`, returning the stored `(start, stop, step)` triple or
the `ValueError` raised for an invalid arity. -/
def rangeParseArgs : List Int → Except TFError (Int × Int × Int)
  | [stop] => .ok (0, stop, 1)
  | [start, stop] => .ok (start, stop, 1)
  | [start, stop, step] => .ok (start, stop, step)
  | _ => .error (.invalidArgument "Invalid arguments to RangeDataset")

/-! ## Shard construction checks (`Dataset.shard`, lines 927-940)

`tensor_util.constant_value` yields `Some v` when the tensor's value is
statically known and `None` otherwise; the three `if` statements each fire
only when the values they need are static. -/

/-- Embedding of the validation in `Dataset.shard` (lines 933-940): the two
arguments are given as their statically-known values (`none` when not
statically known, e.g. a placeholder tensor). -/
def shard_check (numShardsStatic indexStatic : Option Int) : Except TFError Unit :=
  if (match numShardsStatic with | some n => decide (n < 1) | none => false) then
    .error (.invalidArgument "num_shards must be >= 1")
  else if (match indexStatic with | some i => decide (i < 0) | none => false) then
    .error (.invalidArgument "index must be >= 0")
  else if (match numShardsStatic, indexStatic with
           | some n, some i => decide (i ≥ n)
           | _, _ => false) then
    .error (.invalidArgument "index must be <= num_shards")
  else .ok ()

/-! ## The dataset constructor graph used by `Dataset.map` (lines 989-1020)

`Dataset.map` chooses between `MapDataset` and `ParallelMapDataset` and
post-composes `Dataset.prefetch` when `output_buffer_size` is given.  The
constructors are embedded as a small AST; the user function is opaque and
identified by a token. -/

/-- Identifier of an (opaque) user-supplied map function. -/
abbrev FnId := Nat

/-- AST of the dataset nodes built by `Dataset.map` and `Dataset.prefetch`:
`source` stands for the receiver dataset (`self`). -/
inductive DatasetNode where
  | source
  | mapD (input : DatasetNode) (f : FnId)
  | parallelMapD (input : DatasetNode) (f : FnId) (numParallelCalls : Int)
  | prefetchD (input : DatasetNode) (bufferSize : Int)
deriving DecidableEq, Repr

/-- Embedding of `Dataset.prefetch` (line 773): builds a `PrefetchDataset`. -/
def Dataset.prefetch (self : DatasetNode) (bufferSize : Int) : DatasetNode :=
  .prefetchD self bufferSize

/-- Embedding of `Dataset.map` (lines 1011-1020): a plain `MapDataset` when
neither `num_threads` nor `num_parallel_calls` is supplied; otherwise a
`ParallelMapDataset` whose degree is `num_threads` when given, else
`num_parallel_calls`; finally wrapped in `prefetch(output_buffer_size)` when
`output_buffer_size` is supplied. -/
def Dataset.map (self : DatasetNode) (mapFunc : FnId)
    (numThreads : Option Int) (outputBufferSize : Option Int)
    (numParallelCalls : Option Int) : DatasetNode :=
  let ret : DatasetNode :=
    match numThreads, numParallelCalls with
    | none, none => .mapD self mapFunc
    | none, some c => .parallelMapD self mapFunc c
    | some t, _ => .parallelMapD self mapFunc t
  match outputBufferSize with
  | none => ret
  | some b => Dataset.prefetch ret b

/-! ## Nested structures (`tensorflow.python.data.util.nest`)

Elements, type signatures and shape signatures are nested tuples with values
at the leaves.  `nest` is not under `src/` but its operations are fixed by
the spec (§4.1: `flatten` is the deterministic pre-order leaf listing,
`pack` its inverse against a structural template, structure comparison is
purely structural).  The mutual inductive mirrors arbitrary-arity Python
tuples. -/

mutual
/-- Nested structure with values of type `α` at the leaves: a leaf value or a
tuple of nested structures. -/
inductive Nest (α : Type) where
  | leaf : α → Nest α
  | node : NestList α → Nest α

/-- List of children of a `Nest.node`. -/
inductive NestList (α : Type) where
  | nil : NestList α
  | cons : Nest α → NestList α → NestList α
end

mutual
def Nest.decEqAux {α : Type} [DecidableEq α] : (a b : Nest α) → Decidable (a = b)
  | .leaf x, .leaf y =>
      match decEq x y with
      | isTrue h => isTrue (by rw [h])
      | isFalse h => isFalse (by intro hc; cases hc; exact h rfl)
  | .leaf _, .node _ => isFalse (by intro hc; cases hc)
  | .node _, .leaf _ => isFalse (by intro hc; cases hc)
  | .node xs, .node ys =>
      match NestList.decEqAux xs ys with
      | isTrue h => isTrue (by rw [h])
      | isFalse h => isFalse (by intro hc; cases hc; exact h rfl)

def NestList.decEqAux {α : Type} [DecidableEq α] : (a b : NestList α) → Decidable (a = b)
  | .nil, .nil => isTrue rfl
  | .nil, .cons _ _ => isFalse (by intro hc; cases hc)
  | .cons _ _, .nil => isFalse (by intro hc; cases hc)
  | .cons x xs, .cons y ys =>
      match Nest.decEqAux x y, NestList.decEqAux xs ys with
      | isTrue h1, isTrue h2 => isTrue (by rw [h1, h2])
      | isFalse h1, _ => isFalse (by intro hc; cases hc; exact h1 rfl)
      | _, isFalse h2 => isFalse (by intro hc; cases hc; exact h2 rfl)
end

instance {α : Type} [DecidableEq α] : DecidableEq (Nest α) := Nest.decEqAux

instance {α : Type} [DecidableEq α] : DecidableEq (NestList α) := NestList.decEqAux

mutual
/-- Spec §4.1 `flatten`: deterministic pre-order listing of the leaves. -/
def Nest.flatten {α : Type} : Nest α → List α
  | .leaf a => [a]
  | .node cs => NestList.flatten cs

def NestList.flatten {α : Type} : NestList α → List α
  | .nil => []
  | .cons c cs => Nest.flatten c ++ NestList.flatten cs
end

mutual
/-- Structural comparison (`nest.assert_same_structure`): leaves line up with
leaves and tuples with tuples of the same arity; leaf values are ignored. -/
def Nest.sameStructureB {α β : Type} : Nest α → Nest β → Bool
  | .leaf _, .leaf _ => true
  | .node cs, .node ds => NestList.sameStructureB cs ds
  | _, _ => false

def NestList.sameStructureB {α β : Type} : NestList α → NestList β → Bool
  | .nil, .nil => true
  | .cons c cs, .cons d ds => Nest.sameStructureB c d && NestList.sameStructureB cs ds
  | _, _ => false
end

mutual
/-- Apply a function to every leaf (`nest.map_structure`). -/
def Nest.mapLeaves {α β : Type} (f : α → β) : Nest α → Nest β
  | .leaf a => .leaf (f a)
  | .node cs => .node (NestList.mapLeaves f cs)

def NestList.mapLeaves {α β : Type} (f : α → β) : NestList α → NestList β
  | .nil => .nil
  | .cons c cs => .cons (Nest.mapLeaves f c) (NestList.mapLeaves f cs)
end

mutual
/-- Helper for `pack_sequence_as`: consume leaves from the front of `l` to
rebuild the template's structure, returning the rebuilt structure and the
unconsumed remainder, or `none` when `l` runs out. -/
def Nest.packAux {α β : Type} : Nest α → List β → Option (Nest β × List β)
  | .leaf _, [] => none
  | .leaf _, b :: rest => some (.leaf b, rest)
  | .node cs, l =>
      match NestList.packAux cs l with
      | some (ds, rest) => some (.node ds, rest)
      | none => none

def NestList.packAux {α β : Type} : NestList α → List β → Option (NestList β × List β)
  | .nil, l => some (.nil, l)
  | .cons c cs, l =>
      match Nest.packAux c l with
      | some (d, rest) =>
          match NestList.packAux cs rest with
          | some (ds, rest2) => some (.cons d ds, rest2)
          | none => none
      | none => none
end

/-- Spec §4.1 `pack(template, leaves)` (`nest.pack_sequence_as`): rebuild the
template's structure from a flat leaf list; `none` models the `ValueError`
raised when the leaf count does not match the template. -/
def pack_sequence_as {α β : Type} (template : Nest α) (l : List β) : Option (Nest β) :=
  match Nest.packAux template l with
  | some (n, []) => some n
  | _ => none

/-! ## Generator multiplexer (`Dataset._GeneratorState`, lines 485-509, and
`generator_py_func`, lines 593-626)

`_GeneratorState` owns the generator factory, a counter of issued identifiers
and `self._iterators = collections.defaultdict(lambda: iter(generator()))` —
a defaultdict whose missing-key access constructs a fresh producer
invocation.  A producer invocation is embedded as the list of elements it has
yet to yield; the factory always starts a fresh invocation at `gen`. -/

/-- Error raised out of `generator_py_func`: `stopIteration` is the
`StopIteration` terminal signal; `typeMismatch` is the `TypeError` raised for
a dtype disagreement and `shapeMismatch` the `ValueError` raised for an
incompatible shape. -/
inductive PyError where
  | stopIteration
  | typeMismatch
  | shapeMismatch
deriving DecidableEq, Repr

/-- State of `Dataset._GeneratorState`: the sequence a fresh producer
invocation yields (`iter(generator())`), the `_next_id` counter, and the
`_iterators` registry mapping an issued identifier to the remainder of its
producer invocation. -/
structure GeneratorState (α : Type) where
  gen : List α
  next_id : Nat
  iterators : List (Nat × List α)
deriving DecidableEq, Repr

/-- Lookup in the `_iterators` registry. -/
def lookupIter {α : Type} (l : List (Nat × List α)) (id : Nat) : Option (List α) :=
  match l with
  | [] => none
  | (k, v) :: rest => if k = id then some v else lookupIter rest id

/-- Overwrite an entry of the `_iterators` registry (used when a pull
advances an invocation in place). -/
def storeIter {α : Type} (l : List (Nat × List α)) (id : Nat) (v : List α) :
    List (Nat × List α) :=
  match l with
  | [] => [(id, v)]
  | (k, w) :: rest => if k = id then (id, v) :: rest else (k, w) :: storeIter rest id v

/-- Embedding of `_GeneratorState.get_next_id` (lines 499-503): return the
counter and increment it. -/
def get_next_id {α : Type} (s : GeneratorState α) : Nat × GeneratorState α :=
  (s.next_id, { s with next_id := s.next_id + 1 })

/-- Embedding of `_GeneratorState.get_iterator` (lines 505-506): a defaultdict
access, so a missing identifier lazily constructs and registers a fresh
producer invocation `iter(generator())`. -/
def get_iterator {α : Type} (s : GeneratorState α) (id : Nat) :
    List α × GeneratorState α :=
  match lookupIter s.iterators id with
  | some it => (it, s)
  | none => (s.gen, { s with iterators := storeIter s.iterators id s.gen })

/-- Embedding of `_GeneratorState.iterator_completed` (lines 508-509):
`del self._iterators[iterator_id]`. -/
def iterator_completed {α : Type} (s : GeneratorState α) (id : Nat) :
    GeneratorState α :=
  { s with iterators := s.iterators.filter (fun p => p.1 ≠ id) }

/-- Embedding of the pull step of `generator_py_func` (lines 595-599):
`next(generator_state.get_iterator(iterator_id))`, removing the invocation
and re-raising `StopIteration` when it is exhausted, and advancing the
invocation in place otherwise. -/
def generator_pull_next {α : Type} (s : GeneratorState α) (id : Nat) :
    Except PyError α × GeneratorState α :=
  let (it, s1) := get_iterator s id
  match it with
  | [] => (.error .stopIteration, iterator_completed s1 id)
  | x :: rest => (.ok x, { s1 with iterators := storeIter s1.iterators id rest })

/-! ## Per-element validation in `generator_py_func` (lines 605-626) -/

/-- Numpy array produced by one flattened component of a generated element:
its dtype, its concrete shape, and an opaque payload (never interpreted
here). -/
structure NpArray where
  dtype : DType
  shape : List Nat
  data : List Int
deriving DecidableEq, Repr

/-- Embedding of the checking loop of `generator_py_func` (lines 614-624) over
the zipped `(ret_array, expected_dtype, expected_shape)` triples: a dtype
disagreement raises `TypeError`, then an incompatible shape raises
`ValueError`, in component order. -/
def check_components : List (NpArray × DType × TensorShape) → Except PyError Unit
  | [] => .ok ()
  | (arr, dt, sh) :: rest =>
      if arr.dtype ≠ dt then .error .typeMismatch
      else if ¬ shapeCompatible sh (concreteShape arr.shape) then .error .shapeMismatch
      else check_components rest

/-- Embedding of the validation performed by `generator_py_func` on every
pulled element (lines 605-626): check each flattened component against the
declared `output_types` and `output_shapes`, returning the arrays unchanged
when every check passes. -/
def validate_element (flattenedTypes : List DType) (flattenedShapes : List TensorShape)
    (retArrays : List NpArray) : Except PyError (List NpArray) :=
  match check_components (List.zip retArrays (List.zip flattenedTypes flattenedShapes)) with
  | .ok () => .ok retArrays
  | .error e => .error e

/-- Embedding of `generator_py_func` (lines 593-626): pull the next element
from the identifier's producer invocation (removing it on `StopIteration`),
then validate every flattened component against the declared schema. -/
def generator_py_func (flattenedTypes : List DType) (flattenedShapes : List TensorShape)
    (s : GeneratorState (List NpArray)) (id : Nat) :
    Except PyError (List NpArray) × GeneratorState (List NpArray) :=
  match generator_pull_next s id with
  | (.error e, s') => (.error e, s')
  | (.ok values, s') => (validate_element flattenedTypes flattenedShapes values, s')

/-! ## Iterator (`Iterator.make_initializer`, lines 257-290) -/

/-- Error raised by `Iterator.make_initializer` and `ConcatenateDataset`.
The Python source raises `TypeError`/`ValueError`; the spec distinguishes the
three kinds by cause. -/
inductive SchemaError where
  | structureMismatch
  | typeMismatch
  | shapeMismatch
deriving DecidableEq, Repr

/-- Declared schema of an `Iterator` (`self._output_types` and
`self._output_shapes`). -/
structure IteratorModel where
  output_types : Nest DType
  output_shapes : Nest TensorShape
deriving DecidableEq

/-- Schema exposed by a `Dataset` (`output_types`/`output_shapes`
properties). -/
structure DSchema where
  output_types : Nest DType
  output_shapes : Nest TensorShape
deriving DecidableEq

/-- Embedding of the validation in `Iterator.make_initializer` (lines
272-287), in source order: `nest.assert_same_structure` on the types and on
the shapes, then every flattened dataset dtype must equal the iterator's, then
every flattened iterator shape must be compatible with the dataset's
(`iterator_shape.is_compatible_with(dataset_shape)`).  On success the
iterator is returned unchanged (the source never assigns to the iterator's
schema here). -/
def make_initializer (it : IteratorModel) (ds : DSchema) :
    Except SchemaError IteratorModel :=
  if ¬ Nest.sameStructureB it.output_types ds.output_types then
    .error .structureMismatch
  else if ¬ Nest.sameStructureB it.output_shapes ds.output_shapes then
    .error .structureMismatch
  else if (List.zip it.output_types.flatten ds.output_types.flatten).any
      (fun p => p.1 ≠ p.2) then
    .error .typeMismatch
  else if (List.zip it.output_shapes.flatten ds.output_shapes.flatten).any
      (fun p => ¬ shapeCompatible p.1 p.2) then
    .error .shapeMismatch
  else .ok it

/-! ## ConcatenateDataset (lines 1276-1309) -/

/-- Embedding of `ConcatenateDataset.__init__` validation (lines 1281-1289):
`nest.assert_same_structure` on the two type structures, then every pair of
flattened type tags must be equal (`TypeError` otherwise).  No shape
validation happens at construction. -/
def concatenate_check (a b : DSchema) : Except SchemaError Unit :=
  if ¬ Nest.sameStructureB a.output_types b.output_types then
    .error .structureMismatch
  else if (List.zip a.output_types.flatten b.output_types.flatten).any
      (fun p => p.1 ≠ p.2) then
    .error .typeMismatch
  else .ok ()

/-- Embedding of `ConcatenateDataset.output_types` (lines 1307-1309): the
first input's types. -/
def concatenate_output_types (a : DSchema) (b : DSchema) : Nest DType :=
  a.output_types

/-- Embedding of `ConcatenateDataset.output_shapes` (lines 1298-1305): pack
the per-position `most_specific_compatible_shape` of the two flattened shape
lists back into the first input's structure. -/
def concatenate_output_shapes (a b : DSchema) : Option (Nest TensorShape) :=
  pack_sequence_as a.output_shapes
    ((List.zip a.output_shapes.flatten b.output_shapes.flatten).map
      (fun p => most_specific_compatible_shape p.1 p.2))

/-! ## BatchDataset (lines 1499-1525) -/

/-- Modelled from the spec: `tensor_shape.vector(None).concatenate(s)`
(`tensor_shape.py` is not under `src/`) — "Batch prepends an unknown leading
dimension to every leaf shape"; prepending to a shape of unknown rank leaves
the rank unknown. -/
def prependUnknownDim (s : TensorShape) : TensorShape :=
  match s.dims with
  | some ds => ⟨some (none :: ds)⟩
  | none => ⟨none⟩

/-- Embedding of `BatchDataset.output_shapes` (lines 1515-1521): pack the
flattened input shapes, each with an unknown leading dimension prepended,
back into the input's structure. -/
def batch_output_shapes (input : DSchema) : Option (Nest TensorShape) :=
  pack_sequence_as input.output_shapes
    (input.output_shapes.flatten.map prependUnknownDim)

/-- Embedding of `BatchDataset.output_types` (lines 1523-1525): the input's
types, unchanged. -/
def batch_output_types (input : DSchema) : Nest DType :=
  input.output_types

/-! ## FilterDataset predicate wrapper (`tf_predicate`, lines 1828-1847) -/

/-- Graph tensor as seen by the predicate wrapper: a dtype and an (inferred,
possibly partially unknown) shape. -/
structure TensorV where
  dtype : DType
  shape : TensorShape
deriving DecidableEq, Repr

/-- Embedding of the check in `tf_predicate` (lines 1842-1847) on the value
returned by the user predicate, after `ops.convert_to_tensor(ret,
dtype=dtypes.bool)` (the conversion itself is out of `src/`; the embedded
check receives the converted tensor): unless the dtype is `bool` and the
shape is compatible with the scalar shape, raise `ValueError`, otherwise pass
the tensor through unchanged. -/
def tf_predicate_check (ret : TensorV) : Except String TensorV :=
  if ret.dtype = DType.boolT ∧ shapeCompatible ret.shape scalarShape then .ok ret
  else .error "predicate must return a scalar boolean tensor."

/-! ## Execution semantics for the shard pipeline (claim C4)

`Dataset.shard` (line 946) returns
`self._enumerate().filter(filter_fn).map(lambda _, elem: elem)`, with
`Dataset._enumerate` (lines 812-815) zipping the dataset with
`Dataset.range(start, np.iinfo(int64).max)` and `filter_fn` (lines 942-944)
keeping positions with `mod(elem_index, num_shards) == index`.  The element
semantics of the Range/Zip/Filter/Map nodes is executed by the native runtime,
which is not under `src/`; the list semantics below is modelled from the
spec (§4.2): Range produces the step-separated integer sequence, Zip
truncates to the shorter input, Filter keeps elements satisfying the
predicate, Map applies the function elementwise. -/

/-- Maximum value of a 64-bit signed integer (`np.iinfo(dtypes.int64.as_numpy_dtype).max`). -/
def int64Max : Int := 9223372036854775807

/-- Modelled from the spec: number of elements of `Range(start, stop, step)`
for a positive step (the only form `_enumerate` builds: `step = 1`); empty
when the step does not move `start` toward `stop`. -/
def rangeLen (start stop step : Int) : Nat :=
  if step > 0 then ((stop - start + step - 1) / step).toNat
  else if step < 0 then ((start - stop + (-step) - 1) / (-step)).toNat
  else 0

/-- Modelled from the spec: the element sequence of a `Range` node. -/
def rangeSem (start stop step : Int) : List Int :=
  (List.range (rangeLen start stop step)).map (fun (k : Nat) => start + step * (k : Int))

/-- Embedding of `Dataset._enumerate` (lines 812-815):
`Dataset.zip((Dataset.range(start, int64max), self))`, under the
spec-modelled Zip semantics (truncate to the shorter input). -/
def enumerateSem {α : Type} (start : Int) (xs : List α) : List (Int × α) :=
  List.zip (rangeSem start int64Max 1) xs

/-- Embedding of the pipeline built by `Dataset.shard` (lines 942-946) under
the spec-modelled Filter/Map semantics: enumerate from 0, keep positions with
`position % num_shards == index` (`math_ops.mod` is floor-mod, which for the
positive modulus accepted by the validation agrees with `Int.emod`), project
to the bare element. -/
def shardSem {α : Type} (xs : List α) (numShards index : Int) : List α :=
  (((enumerateSem 0 xs).filter (fun p => p.1 % numShards == index)).map (fun p => p.2))

/-- The claim's own composition: enumerate the dataset with 0-based positions
(zip with a range starting at 0), filter on `position mod num_shards ==
index`, and map back to the bare element. -/
def shardEnumerateFilterProject {α : Type} (xs : List α) (numShards index : Int) : List α :=
  ((List.zip ((List.range xs.length).map Int.ofNat) xs).filter
      (fun p => p.1 % numShards == index)).map (fun p => p.2)

/-! ## Helper lemmas on the multiplexer registry -/

theorem lookupIter_storeIter_self {α : Type} (l : List (Nat × List α)) (id : Nat)
    (v : List α) : lookupIter (storeIter l id v) id = some v := by
  induction l with
  | nil => simp [storeIter, lookupIter]
  | cons h t ih =>
      obtain ⟨k, w⟩ := h
      by_cases hk : k = id <;> simp [storeIter, lookupIter, hk, ih]

theorem lookupIter_filter_none {α : Type} (p : Nat × List α → Bool)
    (l : List (Nat × List α)) (id : Nat) (hp : ∀ x, p x = true → x.1 ≠ id) :
    lookupIter (l.filter p) id = none := by
  induction l with
  | nil => rfl
  | cons h t ih =>
      obtain ⟨k, w⟩ := h
      cases hph : p (k, w) with
      | false => simpa [List.filter_cons, hph] using ih
      | true =>
          have hk : k ≠ id := hp (k, w) hph
          simp [List.filter_cons, hph, lookupIter, hk, ih]

theorem lookupIter_iterator_completed {α : Type} (s : GeneratorState α) (id : Nat) :
    lookupIter (iterator_completed s id).iterators id = none := by
  refine lookupIter_filter_none _ _ _ (fun x hx => ?_)
  simpa using hx

/-! ## Claim C1 -/

/-- C1, counterexample: with a producer that yields exactly one element, a
single issued identifier is pulled to exhaustion (second pull signals
`StopIteration` and removes the invocation from the registry), yet a third
pull with the same identifier does not fail with `NotFound`: the defaultdict
lazily re-creates a fresh producer invocation and yields the first element
again. -/
theorem C1_pull_after_exhaustion_restarts :
    (generator_pull_next (⟨[42], 1, []⟩ : GeneratorState Nat) 0).1 = .ok 42 ∧
    (generator_pull_next
        (generator_pull_next (⟨[42], 1, []⟩ : GeneratorState Nat) 0).2 0).1
      = .error .stopIteration ∧
    lookupIter (generator_pull_next
        (generator_pull_next (⟨[42], 1, []⟩ : GeneratorState Nat) 0).2 0).2.iterators 0
      = none ∧
    (generator_pull_next (generator_pull_next
        (generator_pull_next (⟨[42], 1, []⟩ : GeneratorState Nat) 0).2 0).2 0).1
      = .ok 42 :=
  ⟨rfl, rfl, rfl, rfl⟩

/-- C1, amended: when an identifier signals Exhausted its producer invocation
is removed from the registry, but a subsequent pull with that identifier does
not fail with `NotFound`: because `_iterators` is a defaultdict, the pull
lazily re-creates a fresh producer invocation for the identifier, restarting
the produced sequence from its beginning. -/
theorem C1_multiplexer_recreates {α : Type} (s : GeneratorState α) (id : Nat)
    (hgone : lookupIter s.iterators id = none) :
    ((s.gen = [] → (generator_pull_next s id).1 = .error .stopIteration) ∧
     (∀ x rest, s.gen = x :: rest →
        (generator_pull_next s id).1 = .ok x ∧
        lookupIter (generator_pull_next s id).2.iterators id = some rest)) ∧
    (∀ t : GeneratorState α, (generator_pull_next t id).1 = .error .stopIteration →
        lookupIter (generator_pull_next t id).2.iterators id = none) := by
  constructor
  · constructor
    · intro hnil
      simp [generator_pull_next, get_iterator, hgone, hnil]
    · intro x rest hcons
      simp [generator_pull_next, get_iterator, hgone, hcons, lookupIter_storeIter_self]
  · intro t herr
    rcases hgi : get_iterator t id with ⟨it, s1⟩
    simp only [generator_pull_next, hgi] at herr ⊢
    cases it with
    | nil => exact lookupIter_iterator_completed s1 id
    | cons x rest => simp at herr

/-- Witness for `C1_multiplexer_recreates`: a concrete two-element producer
and an identifier absent from the registry. -/
theorem C1_multiplexer_recreates_witness :
    (generator_pull_next (⟨[7, 8], 1, []⟩ : GeneratorState Nat) 0).1 = .ok 7 ∧
    lookupIter (generator_pull_next
        (⟨[7, 8], 1, []⟩ : GeneratorState Nat) 0).2.iterators 0 = some [8] :=
  (C1_multiplexer_recreates (⟨[7, 8], 1, []⟩ : GeneratorState Nat) 0 rfl).1.2 7 [8] rfl

/-! ## Claim C2 -/

/-- C2, counterexample: constructing `Dataset.range(0, 5, 0)` — a Range node
whose step is statically known to be 0 — succeeds at construction instead of
failing with `InvalidArgument`. -/
theorem C2_zero_step_construction_succeeds :
    rangeParseArgs [0, 5, 0] = .ok (0, 5, 0) := rfl

/-- C2, amended: `RangeDataset._parse_args` performs no validation of the
parameter values: every three-argument construction succeeds, including one
whose step is statically known to be 0; any zero-step error can only arise
later, at execution time, in the native range kernel (which is outside
`src/`). -/
theorem C2_range_construction_unvalidated (start stop step : Int) :
    rangeParseArgs [start, stop, step] = .ok (start, stop, step) := rfl

/-! ## Claim C3 -/

/-- C3, counterexample: with `num_shards` not statically known but `index`
statically known to be `-1`, the check is not deferred to execution — the
construction fails immediately on the `index` check. -/
theorem C3_static_index_checked_alone :
    shard_check none (some (-1)) = .error (.invalidArgument "index must be >= 0") := rfl

/-- C3, amended: each of the three shard checks runs exactly when the values
it needs are statically known — `num_shards ≥ 1` when `num_shards` is static,
`index ≥ 0` when `index` is static, `index < num_shards` when both are — so
construction succeeds iff every check whose inputs are static passes (checks
with non-static inputs are deferred), and in particular
`shard(num_shards=3, index=5)` fails with `InvalidArgument` at
construction. -/
theorem C3_shard_check_characterization (ns idx : Option Int) :
    (shard_check ns idx = .ok () ↔
      (∀ n ∈ ns, 1 ≤ n) ∧ (∀ i ∈ idx, 0 ≤ i) ∧ (∀ n ∈ ns, ∀ i ∈ idx, i < n)) ∧
    shard_check (some 3) (some 5)
      = .error (.invalidArgument "index must be <= num_shards") := by
  refine ⟨?_, rfl⟩
  cases ns <;> cases idx <;> simp [shard_check]
  split_ifs <;> simp_all

/-- Witness for `C3_shard_check_characterization`: the fully static pair
`(3, 1)` passes every check. -/
theorem C3_shard_check_witness : shard_check (some 3) (some 1) = .ok () :=
  (C3_shard_check_characterization (some 3) (some 1)).1.mpr
    ⟨by decide, by decide, by decide⟩

/-! ## Claim C9 -/

/-- C9, confirmed: the Filter predicate wrapper fails with `ValueError`
whenever the value returned by the user predicate (after conversion to a
tensor) is not a scalar boolean — success holds exactly when the dtype is
`bool` and the shape is compatible with the scalar shape, which means the
shape has unknown rank or is exactly rank 0 — and a scalar boolean is passed
through unchanged. -/
theorem C9_filter_predicate_check (ret : TensorV) :
    (tf_predicate_check ret = .ok ret ↔
       ret.dtype = DType.boolT ∧
         (ret.shape.dims = none ∨ ret.shape.dims = some [])) ∧
    (∀ v, tf_predicate_check ret = .ok v → v = ret) ∧
    (¬ (ret.dtype = DType.boolT ∧ shapeCompatible ret.shape scalarShape = true) →
       tf_predicate_check ret
         = .error "predicate must return a scalar boolean tensor.") := by
  obtain ⟨dt, ⟨dims⟩⟩ := ret
  have hshape : shapeCompatible ⟨dims⟩ scalarShape = true ↔
      (dims = none ∨ dims = some []) := by
    cases dims with
    | none => simp [shapeCompatible, scalarShape]
    | some ds => cases ds <;> simp [shapeCompatible, scalarShape]
  refine ⟨?_, ?_, ?_⟩
  · show tf_predicate_check ⟨dt, ⟨dims⟩⟩ = .ok ⟨dt, ⟨dims⟩⟩ ↔
        dt = DType.boolT ∧ (dims = none ∨ dims = some [])
    rw [← hshape]
    unfold tf_predicate_check
    split_ifs with h
    · exact iff_of_true rfl h
    · refine iff_of_false ?_ h
      intro hc
      cases hc
  · intro v hv
    unfold tf_predicate_check at hv
    split_ifs at hv
    cases hv
    rfl
  · intro h
    unfold tf_predicate_check
    rw [if_neg h]

/-- Witness for `C9_filter_predicate_check`: a concrete scalar boolean
tensor. -/
theorem C9_filter_witness :
    tf_predicate_check ⟨DType.boolT, ⟨some []⟩⟩ = .ok ⟨DType.boolT, ⟨some []⟩⟩ :=
  (C9_filter_predicate_check ⟨DType.boolT, ⟨some []⟩⟩).1.mpr ⟨rfl, Or.inr rfl⟩

/-! ## Claim C10 -/

/-- C10, confirmed: `Dataset.map` with `output_buffer_size=b` equals the map
node without the buffer argument composed with `prefetch(b)`, for every
combination of the threading arguments; the result is a plain `MapDataset`
exactly when neither `num_threads` nor `num_parallel_calls` is supplied, a
`ParallelMapDataset` with degree `num_parallel_calls` when only that is
supplied, and a `ParallelMapDataset` with degree `num_threads` whenever
`num_threads` is supplied, even if `num_parallel_calls` is also supplied. -/
theorem C10_map_composition (self : DatasetNode) (f : FnId)
    (nt npc : Option Int) (b : Int) :
    (Dataset.map self f nt (some b) npc
        = Dataset.prefetch (Dataset.map self f nt none npc) b) ∧
    (Dataset.map self f none none none = .mapD self f) ∧
    (∀ c : Int, Dataset.map self f none none (some c) = .parallelMapD self f c) ∧
    (∀ t : Int, ∀ npc2 : Option Int,
        Dataset.map self f (some t) none npc2 = .parallelMapD self f t) := by
  refine ⟨?_, rfl, fun c => rfl, fun t npc2 => ?_⟩
  · cases nt <;> cases npc <;> rfl
  · cases npc2 <;> rfl

/-! ## Claim C6 -/

/-- C6, confirmed: `Iterator.make_initializer(dataset)` fails with a
structure/type/shape mismatch error exactly when the dataset's schema is
incompatible with the iterator's declared schema — the nesting structures
must be identical (for types and shapes), every flattened dataset dtype must
equal the iterator's corresponding dtype, and every flattened iterator shape
must be compatible with the dataset's corresponding shape — and on success
the iterator's declared schema is returned unchanged. -/
theorem C6_make_initializer_characterization (it : IteratorModel) (ds : DSchema) :
    (make_initializer it ds = .ok it ↔
       (Nest.sameStructureB it.output_types ds.output_types = true ∧
        Nest.sameStructureB it.output_shapes ds.output_shapes = true ∧
        (∀ p ∈ List.zip it.output_types.flatten ds.output_types.flatten, p.1 = p.2) ∧
        (∀ p ∈ List.zip it.output_shapes.flatten ds.output_shapes.flatten,
           shapeCompatible p.1 p.2 = true))) ∧
    ((∃ e, make_initializer it ds = .error e) ↔
       ¬ (Nest.sameStructureB it.output_types ds.output_types = true ∧
          Nest.sameStructureB it.output_shapes ds.output_shapes = true ∧
          (∀ p ∈ List.zip it.output_types.flatten ds.output_types.flatten, p.1 = p.2) ∧
          (∀ p ∈ List.zip it.output_shapes.flatten ds.output_shapes.flatten,
             shapeCompatible p.1 p.2 = true))) ∧
    (∀ r, make_initializer it ds = .ok r → r = it) := by
  unfold make_initializer
  split_ifs with h1 h2 h3 h4 <;>
    simp_all [List.any_eq_true]
  exact h3

/-- Witness for `C6_make_initializer_characterization`: a compatible concrete
iterator/dataset pair (equal dtype, iterator dimension unknown so the known
dataset dimension is compatible). -/
theorem C6_make_initializer_witness :
    make_initializer
        ⟨Nest.leaf DType.int64, Nest.leaf ⟨some [none]⟩⟩
        ⟨Nest.leaf DType.int64, Nest.leaf ⟨some [some 3]⟩⟩
      = .ok ⟨Nest.leaf DType.int64, Nest.leaf ⟨some [none]⟩⟩ :=
  (C6_make_initializer_characterization
      ⟨Nest.leaf DType.int64, Nest.leaf ⟨some [none]⟩⟩
      ⟨Nest.leaf DType.int64, Nest.leaf ⟨some [some 3]⟩⟩).1.mpr
    ⟨rfl, rfl, by decide, by decide⟩

/-! ## Helper lemmas on nested structures -/

mutual
theorem nestPackAuxSpec {α β : Type} (t : Nest α) (l : List β)
    (h : t.flatten.length ≤ l.length) :
    ∃ n : Nest β, Nest.packAux t l = some (n, l.drop t.flatten.length) ∧
      n.flatten = l.take t.flatten.length ∧ Nest.sameStructureB t n = true := by
  cases t with
  | leaf a =>
      cases l with
      | nil => simp [Nest.flatten] at h
      | cons b rest => exact ⟨.leaf b, rfl, rfl, rfl⟩
  | node cs =>
      have h' : cs.flatten.length ≤ l.length := h
      obtain ⟨ns, h1, h2, h3⟩ := nestListPackAuxSpec cs l h'
      refine ⟨.node ns, ?_, h2, h3⟩
      show (match NestList.packAux cs l with
            | some (ds, rest) => some (Nest.node ds, rest)
            | none => none) = _
      rw [h1]
      rfl

theorem nestListPackAuxSpec {α β : Type} (ts : NestList α) (l : List β)
    (h : ts.flatten.length ≤ l.length) :
    ∃ ns : NestList β, NestList.packAux ts l = some (ns, l.drop ts.flatten.length) ∧
      ns.flatten = l.take ts.flatten.length ∧ NestList.sameStructureB ts ns = true := by
  cases ts with
  | nil => exact ⟨.nil, rfl, rfl, rfl⟩
  | cons c cs =>
      have hlen : (NestList.flatten (NestList.cons c cs)).length
          = c.flatten.length + cs.flatten.length := by
        simp [NestList.flatten]
      have hc : c.flatten.length ≤ l.length := by omega
      obtain ⟨d, h1, h2, h3⟩ := nestPackAuxSpec c l hc
      have hcs : cs.flatten.length ≤ (l.drop c.flatten.length).length := by
        simp [List.length_drop]
        omega
      obtain ⟨ds, h4, h5, h6⟩ := nestListPackAuxSpec cs (l.drop c.flatten.length) hcs
      refine ⟨.cons d ds, ?_, ?_, ?_⟩
      · show (match Nest.packAux c l with
              | some (d, rest) =>
                  match NestList.packAux cs rest with
                  | some (ds, rest2) => some (NestList.cons d ds, rest2)
                  | none => none
              | none => none) = _
        rw [h1]
        show (match NestList.packAux cs (List.drop c.flatten.length l) with
              | some (ds, rest2) => some (NestList.cons d ds, rest2)
              | none => none) = _
        rw [h4]
        show some (NestList.cons d ds,
            List.drop cs.flatten.length (List.drop c.flatten.length l)) = _
        rw [List.drop_drop, hlen]
      · show d.flatten ++ ds.flatten = _
        rw [h2, h5, hlen, List.take_add]
      · show (Nest.sameStructureB c d && NestList.sameStructureB cs ds) = true
        rw [h3, h6]
        rfl
end

theorem pack_sequence_as_spec {α β : Type} (t : Nest α) (l : List β)
    (h : l.length = t.flatten.length) :
    ∃ n : Nest β, pack_sequence_as t l = some n ∧ n.flatten = l ∧
      Nest.sameStructureB t n = true := by
  obtain ⟨n, h1, h2, h3⟩ := nestPackAuxSpec t l (le_of_eq h.symm)
  refine ⟨n, ?_, ?_, h3⟩
  · unfold pack_sequence_as
    rw [h1, ← h, List.drop_length]
  · rw [h2, ← h, List.take_length]

mutual
theorem nestSameStructureLength {α β : Type} (a : Nest α) (b : Nest β)
    (h : Nest.sameStructureB a b = true) : a.flatten.length = b.flatten.length := by
  cases a with
  | leaf x =>
      cases b with
      | leaf y => rfl
      | node ds => simp [Nest.sameStructureB] at h
  | node cs =>
      cases b with
      | leaf y => simp [Nest.sameStructureB] at h
      | node ds => exact nestListSameStructureLength cs ds h

theorem nestListSameStructureLength {α β : Type} (a : NestList α) (b : NestList β)
    (h : NestList.sameStructureB a b = true) : a.flatten.length = b.flatten.length := by
  cases a with
  | nil =>
      cases b with
      | nil => rfl
      | cons d ds => simp [NestList.sameStructureB] at h
  | cons c cs =>
      cases b with
      | nil => simp [NestList.sameStructureB] at h
      | cons d ds =>
          have h' : Nest.sameStructureB c d = true ∧ NestList.sameStructureB cs ds = true := by
            simpa [NestList.sameStructureB, Bool.and_eq_true] using h
          simp [NestList.flatten, List.length_append,
            nestSameStructureLength c d h'.1, nestListSameStructureLength cs ds h'.2]
end

/-! ## Helper lemmas for the merged shapes of Concatenate -/

theorem mergeDim_compat_left (a b : Option Nat) :
    dimCompatible (mergeDim a b) a = true := by
  cases a with
  | none => rfl
  | some x =>
      cases b with
      | none => rfl
      | some y =>
          show dimCompatible (if (x == y) = true then some x else none) (some x) = true
          split_ifs with h <;> simp [dimCompatible]

theorem mergeDim_compat_right (a b : Option Nat) :
    dimCompatible (mergeDim a b) b = true := by
  cases a with
  | none => rfl
  | some x =>
      cases b with
      | none => rfl
      | some y =>
          show dimCompatible (if (x == y) = true then some x else none) (some y) = true
          split_ifs with h <;> simp_all [dimCompatible]

theorem mergeDim_generalizes_left (a b : Option Nat) :
    (mergeDim a b == none || mergeDim a b == a) = true := by
  cases a with
  | none => rfl
  | some x =>
      cases b with
      | none => rfl
      | some y =>
          show ((if (x == y) = true then some x else none) == none
              || (if (x == y) = true then some x else none) == some x) = true
          split_ifs with h <;> simp

theorem mergeDim_generalizes_right (a b : Option Nat) :
    (mergeDim a b == none || mergeDim a b == b) = true := by
  cases a with
  | none => rfl
  | some x =>
      cases b with
      | none => rfl
      | some y =>
          show ((if (x == y) = true then some x else none) == none
              || (if (x == y) = true then some x else none) == some y) = true
          split_ifs with h <;> simp_all

theorem mergeDim_lub (a b u : Option Nat) (h1 : (u == none || u == a) = true)
    (h2 : (u == none || u == b) = true) :
    (u == none || u == mergeDim a b) = true := by
  cases u with
  | none => rfl
  | some v =>
      simp at h1 h2 ⊢
      subst h1
      subst h2
      simp [mergeDim]

theorem msc_dims_all_left : ∀ (ds dt : List (Option Nat)),
    (List.zip ((List.zip ds dt).map (fun p => mergeDim p.1 p.2)) ds).all
      (fun p => dimCompatible p.1 p.2) = true := by
  intro ds
  induction ds with
  | nil => intro dt; rfl
  | cons d ds ih =>
      intro dt
      cases dt with
      | nil => rfl
      | cons e dt =>
          simp only [List.zip_cons_cons, List.map_cons, List.all_cons, Bool.and_eq_true]
          exact ⟨mergeDim_compat_left d e, ih dt⟩

theorem msc_dims_all_right : ∀ (ds dt : List (Option Nat)),
    (List.zip ((List.zip ds dt).map (fun p => mergeDim p.1 p.2)) dt).all
      (fun p => dimCompatible p.1 p.2) = true := by
  intro ds
  induction ds with
  | nil => intro dt; rfl
  | cons d ds ih =>
      intro dt
      cases dt with
      | nil => rfl
      | cons e dt =>
          simp only [List.zip_cons_cons, List.map_cons, List.all_cons, Bool.and_eq_true]
          exact ⟨mergeDim_compat_right d e, ih dt⟩

theorem msc_dims_gen_left : ∀ (ds dt : List (Option Nat)),
    (List.zip ds ((List.zip ds dt).map (fun p => mergeDim p.1 p.2))).all
      (fun p => p.2 == none || p.2 == p.1) = true := by
  intro ds
  induction ds with
  | nil => intro dt; rfl
  | cons d ds ih =>
      intro dt
      cases dt with
      | nil => rfl
      | cons e dt =>
          simp only [List.zip_cons_cons, List.map_cons, List.all_cons, Bool.and_eq_true]
          exact ⟨mergeDim_generalizes_left d e, ih dt⟩

theorem msc_dims_gen_right : ∀ (ds dt : List (Option Nat)),
    (List.zip dt ((List.zip ds dt).map (fun p => mergeDim p.1 p.2))).all
      (fun p => p.2 == none || p.2 == p.1) = true := by
  intro ds
  induction ds with
  | nil => intro dt; cases dt <;> rfl
  | cons d ds ih =>
      intro dt
      cases dt with
      | nil => rfl
      | cons e dt =>
          simp only [List.zip_cons_cons, List.map_cons, List.all_cons, Bool.and_eq_true]
          exact ⟨mergeDim_generalizes_right d e, ih dt⟩

theorem msc_dims_lub : ∀ (ds dt us : List (Option Nat)),
    (List.zip ds us).all (fun p => p.2 == none || p.2 == p.1) = true →
    (List.zip dt us).all (fun p => p.2 == none || p.2 == p.1) = true →
    (List.zip ((List.zip ds dt).map (fun p => mergeDim p.1 p.2)) us).all
      (fun p => p.2 == none || p.2 == p.1) = true := by
  intro ds
  induction ds with
  | nil => intro dt us h1 h2; cases us <;> rfl
  | cons d ds ih =>
      intro dt us h1 h2
      cases dt with
      | nil => cases us <;> rfl
      | cons e dt =>
          cases us with
          | nil => rfl
          | cons u us =>
              simp only [List.zip_cons_cons, List.map_cons, List.all_cons,
                Bool.and_eq_true] at h1 h2 ⊢
              refine ⟨?_, ih dt us h1.2 h2.2⟩
              have hu1 := h1.1
              have hu2 := h2.1
              cases u with
              | none => rfl
              | some v =>
                  simp at hu1 hu2 ⊢
                  subst hu1
                  subst hu2
                  simp [mergeDim]

theorem msc_is_lub (s t : TensorShape) :
    shapeCompatible (most_specific_compatible_shape s t) s = true ∧
    shapeCompatible (most_specific_compatible_shape s t) t = true ∧
    shapeRefines s (most_specific_compatible_shape s t) = true ∧
    shapeRefines t (most_specific_compatible_shape s t) = true ∧
    (∀ u, shapeRefines s u = true → shapeRefines t u = true →
      shapeRefines (most_specific_compatible_shape s t) u = true) := by
  obtain ⟨sd⟩ := s
  obtain ⟨td⟩ := t
  cases sd with
  | none =>
      refine ⟨rfl, ?_, rfl, ?_, ?_⟩
      · cases td <;> rfl
      · cases td <;> rfl
      · intro u h1 h2
        obtain ⟨ud⟩ := u
        cases ud with
        | none => cases td <;> rfl
        | some us => simp [shapeRefines] at h1
  | some ds =>
      cases td with
      | none =>
          refine ⟨rfl, rfl, rfl, rfl, ?_⟩
          intro u h1 h2
          obtain ⟨ud⟩ := u
          cases ud with
          | none => rfl
          | some us => simp [shapeRefines] at h2
      | some dt =>
          by_cases hlen : ds.length = dt.length
          · have hmsc : most_specific_compatible_shape ⟨some ds⟩ ⟨some dt⟩
                = ⟨some ((List.zip ds dt).map (fun p => mergeDim p.1 p.2))⟩ := by
              simp [most_specific_compatible_shape, hlen]
            rw [hmsc]
            refine ⟨?_, ?_, ?_, ?_, ?_⟩
            · simp [shapeCompatible, List.length_map, List.length_zip, hlen,
                msc_dims_all_left ds dt]
            · simp [shapeCompatible, List.length_map, List.length_zip, hlen,
                msc_dims_all_right ds dt]
            · simp [shapeRefines, List.length_map, List.length_zip, hlen,
                msc_dims_gen_left ds dt]
            · simp [shapeRefines, List.length_map, List.length_zip, hlen,
                msc_dims_gen_right ds dt]
            · intro u h1 h2
              obtain ⟨ud⟩ := u
              cases ud with
              | none => rfl
              | some us =>
                  simp only [shapeRefines, Bool.and_eq_true, beq_iff_eq] at h1 h2 ⊢
                  refine ⟨?_, ?_⟩
                  · have ha := h1.1
                    have hb := h2.1
                    simp only [List.length_map, List.length_zip]
                    omega
                  · exact msc_dims_lub ds dt us h1.2 h2.2
          · have hmsc : most_specific_compatible_shape ⟨some ds⟩ ⟨some dt⟩ = ⟨none⟩ := by
              simp [most_specific_compatible_shape, hlen]
            rw [hmsc]
            refine ⟨rfl, rfl, rfl, rfl, ?_⟩
            intro u h1 h2
            obtain ⟨ud⟩ := u
            cases ud with
            | none => rfl
            | some us =>
                simp only [shapeRefines, Bool.and_eq_true, beq_iff_eq] at h1 h2
                omega

/-! ## Claim C7 -/

/-- C7, confirmed: `Concatenate(a, b)` fails at construction exactly when the
two type structures are not identical or some pair of corresponding leaf type
tags differs; on success the output types are `a`'s types and each leaf
output shape is the `most_specific_compatible_shape` of the two corresponding
input shapes — a shape compatible with both inputs and the most specific
common generalization of the two (the least upper bound in the specificity
order), which keeps a dimension only when both known dimensions agree and
widens it to unknown otherwise. -/
theorem C7_concatenate_schema (a b : DSchema)
    (hsh : Nest.sameStructureB a.output_shapes b.output_shapes = true) :
    (concatenate_check a b = .ok () ↔
       (Nest.sameStructureB a.output_types b.output_types = true ∧
        ∀ p ∈ List.zip a.output_types.flatten b.output_types.flatten, p.1 = p.2)) ∧
    concatenate_output_types a b = a.output_types ∧
    (∃ outSh, concatenate_output_shapes a b = some outSh ∧
       Nest.sameStructureB a.output_shapes outSh = true ∧
       outSh.flatten
         = (List.zip a.output_shapes.flatten b.output_shapes.flatten).map
             (fun p => most_specific_compatible_shape p.1 p.2)) ∧
    (∀ s t : TensorShape,
       shapeCompatible (most_specific_compatible_shape s t) s = true ∧
       shapeCompatible (most_specific_compatible_shape s t) t = true ∧
       shapeRefines s (most_specific_compatible_shape s t) = true ∧
       shapeRefines t (most_specific_compatible_shape s t) = true ∧
       (∀ u, shapeRefines s u = true → shapeRefines t u = true →
          shapeRefines (most_specific_compatible_shape s t) u = true)) := by
  refine ⟨?_, rfl, ?_, fun s t => msc_is_lub s t⟩
  · unfold concatenate_check
    split_ifs with h1 h2 <;> simp_all [List.any_eq_true]
    exact h2
  · have hlen : ((List.zip a.output_shapes.flatten b.output_shapes.flatten).map
        (fun p => most_specific_compatible_shape p.1 p.2)).length
        = a.output_shapes.flatten.length := by
      have hl := nestSameStructureLength a.output_shapes b.output_shapes hsh
      simp [List.length_map, List.length_zip, hl]
    obtain ⟨n, hp1, hp2, hp3⟩ := pack_sequence_as_spec a.output_shapes _ hlen
    exact ⟨n, hp1, hp3, hp2⟩

/-- Witness for `C7_concatenate_schema`: two single-leaf schemas with equal
types and rank-2 shapes (one dimension agreeing, one conflicting). -/
theorem C7_concatenate_witness :
    concatenate_check
        ⟨Nest.leaf DType.int64, Nest.leaf ⟨some [some 3, some 5]⟩⟩
        ⟨Nest.leaf DType.int64, Nest.leaf ⟨some [some 4, some 5]⟩⟩
      = .ok () :=
  (C7_concatenate_schema
      ⟨Nest.leaf DType.int64, Nest.leaf ⟨some [some 3, some 5]⟩⟩
      ⟨Nest.leaf DType.int64, Nest.leaf ⟨some [some 4, some 5]⟩⟩ rfl).1.mpr
    ⟨rfl, by decide⟩

/-! ## Claim C8 -/

/-- C8, confirmed: for every input dataset, `Batch`'s output schema keeps the
input's nesting structure and leaf types unchanged, and each leaf shape is
the corresponding input leaf shape with one unknown leading dimension
prepended (a leaf of wholly unknown rank stays of unknown rank). -/
theorem C8_batch_schema (input : DSchema) :
    batch_output_types input = input.output_types ∧
    (∃ outSh, batch_output_shapes input = some outSh ∧
       Nest.sameStructureB input.output_shapes outSh = true ∧
       outSh.flatten = input.output_shapes.flatten.map prependUnknownDim) ∧
    (∀ s : TensorShape, ∀ ds, s.dims = some ds →
       prependUnknownDim s = ⟨some (none :: ds)⟩) := by
  refine ⟨rfl, ?_, fun s ds h => by simp [prependUnknownDim, h]⟩
  have hlen : (input.output_shapes.flatten.map prependUnknownDim).length
      = input.output_shapes.flatten.length := by
    simp [List.length_map]
  obtain ⟨n, hp1, hp2, hp3⟩ := pack_sequence_as_spec input.output_shapes _ hlen
  exact ⟨n, hp1, hp3, hp2⟩

/-- Witness for `C8_batch_schema`: a concrete rank-1 leaf shape gains an
unknown leading dimension. -/
theorem C8_batch_witness :
    prependUnknownDim ⟨some [some 2]⟩ = ⟨some [none, some 2]⟩ :=
  (C8_batch_schema ⟨Nest.leaf DType.int32, Nest.leaf ⟨some [some 2]⟩⟩).2.2
    ⟨some [some 2]⟩ [some 2] rfl

/-! ## Helper lemma for the shard pipeline -/

theorem zip_congr_left {α β : Type} : ∀ (xs : List β) (l1 l2 : List α),
    l1.take xs.length = l2.take xs.length → l1.zip xs = l2.zip xs := by
  intro xs
  induction xs with
  | nil => intro l1 l2 h; simp
  | cons x xs ih =>
      intro l1 l2 h
      cases l1 with
      | nil =>
          cases l2 with
          | nil => rfl
          | cons b l2 => simp at h
      | cons a l1 =>
          cases l2 with
          | nil => simp at h
          | cons b l2 =>
              simp only [List.length_cons, List.take_succ_cons, List.cons.injEq] at h
              simp [List.zip_cons_cons, h.1, ih l1 l2 h.2]

/-! ## Claim C4 -/

/-- C4, confirmed: for every dataset (element list) and valid
`(num_shards, index)`, the pipeline built by `Dataset.shard` — enumerate by
zipping with `Range(0, int64 max)`, filter on `position % num_shards ==
index`, project to the bare element — produces exactly the claimed
enumerate-filter-project composition over genuine 0-based positions (the
int64-max range bound never truncates a dataset of admissible length). -/
theorem C4_shard_enumerate_filter_map {α : Type} (xs : List α) (numShards index : Int)
    (hn : 1 ≤ numShards) (hi : 0 ≤ index) (hin : index < numShards)
    (hlen : xs.length ≤ Int.toNat int64Max) :
    shardSem xs numShards index = shardEnumerateFilterProject xs numShards index := by
  unfold shardSem shardEnumerateFilterProject enumerateSem
  have h1 : ∀ M : Int, rangeSem 0 M 1 = (List.range (Int.toNat M)).map Int.ofNat := by
    intro M
    unfold rangeSem rangeLen
    rw [if_pos (by norm_num : (1 : Int) > 0)]
    have harith : (M - 0 + 1 - 1) / 1 = M := by
      simp
    rw [harith]
    apply List.map_congr_left
    intro k hk
    simp
  have hz : (rangeSem 0 int64Max 1).zip xs
      = ((List.range xs.length).map Int.ofNat).zip xs := by
    apply zip_congr_left
    rw [h1 int64Max, ← List.map_take, ← List.map_take, List.take_range, List.take_range,
      min_eq_left hlen, min_self]
  rw [hz]

/-- Witness for `C4_shard_enumerate_filter_map`: a concrete five-element
dataset sharded three ways at index 1. -/
theorem C4_shard_witness :
    shardSem [10, 20, 30, 40, 50] 3 1
      = shardEnumerateFilterProject [10, 20, 30, 40, 50] 3 1 :=
  C4_shard_enumerate_filter_map [10, 20, 30, 40, 50] 3 1
    (by decide) (by decide) (by decide) (by decide)

/-! ## Helper lemmas for the generator validation loop -/

theorem check_components_cons_ok (arr : NpArray) (dt : DType) (sh : TensorShape)
    (rest : List (NpArray × DType × TensorShape))
    (h1 : arr.dtype = dt) (h2 : shapeCompatible sh (concreteShape arr.shape) = true) :
    check_components ((arr, dt, sh) :: rest) = check_components rest := by
  simp only [check_components]
  rw [if_neg (not_not_intro h1), if_neg (not_not_intro h2)]

theorem check_components_cons_typeErr (arr : NpArray) (dt : DType) (sh : TensorShape)
    (rest : List (NpArray × DType × TensorShape)) (h1 : arr.dtype ≠ dt) :
    check_components ((arr, dt, sh) :: rest) = .error .typeMismatch := by
  simp only [check_components]
  rw [if_pos h1]

theorem check_components_cons_shapeErr (arr : NpArray) (dt : DType) (sh : TensorShape)
    (rest : List (NpArray × DType × TensorShape)) (h1 : arr.dtype = dt)
    (h2 : ¬ shapeCompatible sh (concreteShape arr.shape) = true) :
    check_components ((arr, dt, sh) :: rest) = .error .shapeMismatch := by
  simp only [check_components]
  rw [if_neg (not_not_intro h1), if_pos h2]

theorem check_components_ok_iff (l : List (NpArray × DType × TensorShape)) :
    check_components l = .ok () ↔
      ∀ p ∈ l, p.1.dtype = p.2.1 ∧
        shapeCompatible p.2.2 (concreteShape p.1.shape) = true := by
  induction l with
  | nil => simp [check_components]
  | cons c rest ih =>
      obtain ⟨arr, dt, sh⟩ := c
      by_cases h1 : arr.dtype = dt
      · by_cases h2 : shapeCompatible sh (concreteShape arr.shape) = true
        · rw [check_components_cons_ok arr dt sh rest h1 h2, ih]
          constructor
          · intro hrest p hp
            rcases List.mem_cons.mp hp with hp | hp
            · subst hp
              exact ⟨h1, h2⟩
            · exact hrest p hp
          · intro hall p hp
            exact hall p (List.mem_cons_of_mem _ hp)
        · rw [check_components_cons_shapeErr arr dt sh rest h1 h2]
          constructor
          · intro hc
            cases hc
          · intro hall
            exact absurd (hall (arr, dt, sh) (List.mem_cons_self _ _)).2 h2
      · rw [check_components_cons_typeErr arr dt sh rest h1]
        constructor
        · intro hc
          cases hc
        · intro hall
          exact absurd (hall (arr, dt, sh) (List.mem_cons_self _ _)).1 h1

theorem check_components_type_iff (l : List (NpArray × DType × TensorShape)) :
    check_components l = .error .typeMismatch ↔
      ∃ l1 p l2, l = l1 ++ p :: l2 ∧
        (∀ q ∈ l1, q.1.dtype = q.2.1 ∧
           shapeCompatible q.2.2 (concreteShape q.1.shape) = true) ∧
        p.1.dtype ≠ p.2.1 := by
  induction l with
  | nil =>
      constructor
      · intro hc
        cases hc
      · rintro ⟨l1, p, l2, heq, -, -⟩
        exact absurd heq.symm (List.append_ne_nil_of_right_ne_nil _ (by simp))
  | cons c rest ih =>
      obtain ⟨arr, dt, sh⟩ := c
      by_cases h1 : arr.dtype = dt
      · by_cases h2 : shapeCompatible sh (concreteShape arr.shape) = true
        · rw [check_components_cons_ok arr dt sh rest h1 h2, ih]
          constructor
          · rintro ⟨l1, p, l2, heq, hok, hbad⟩
            refine ⟨(arr, dt, sh) :: l1, p, l2, by rw [heq]; rfl, ?_, hbad⟩
            intro q hq
            rcases List.mem_cons.mp hq with hq | hq
            · subst hq
              exact ⟨h1, h2⟩
            · exact hok q hq
          · rintro ⟨l1, p, l2, heq, hok, hbad⟩
            cases l1 with
            | nil =>
                simp only [List.nil_append, List.cons.injEq] at heq
                obtain ⟨hp, -⟩ := heq
                rw [← hp] at hbad
                exact absurd h1 hbad
            | cons q l1 =>
                simp only [List.cons_append, List.cons.injEq] at heq
                obtain ⟨hq, hrest⟩ := heq
                exact ⟨l1, p, l2, hrest,
                  fun r hr => hok r (List.mem_cons_of_mem _ hr), hbad⟩
        · rw [check_components_cons_shapeErr arr dt sh rest h1 h2]
          constructor
          · intro hc
            simp at hc
          · rintro ⟨l1, p, l2, heq, hok, hbad⟩
            cases l1 with
            | nil =>
                simp only [List.nil_append, List.cons.injEq] at heq
                obtain ⟨hp, -⟩ := heq
                rw [← hp] at hbad
                exact absurd h1 hbad
            | cons q l1 =>
                simp only [List.cons_append, List.cons.injEq] at heq
                obtain ⟨hq, -⟩ := heq
                subst hq
                exact absurd (hok (arr, dt, sh) (List.mem_cons_self _ _)).2 h2
      · rw [check_components_cons_typeErr arr dt sh rest h1]
        constructor
        · intro _
          exact ⟨[], (arr, dt, sh), rest, rfl, by simp, h1⟩
        · intro _
          rfl

theorem check_components_shape_iff (l : List (NpArray × DType × TensorShape)) :
    check_components l = .error .shapeMismatch ↔
      ∃ l1 p l2, l = l1 ++ p :: l2 ∧
        (∀ q ∈ l1, q.1.dtype = q.2.1 ∧
           shapeCompatible q.2.2 (concreteShape q.1.shape) = true) ∧
        p.1.dtype = p.2.1 ∧
        shapeCompatible p.2.2 (concreteShape p.1.shape) = false := by
  induction l with
  | nil =>
      constructor
      · intro hc
        cases hc
      · rintro ⟨l1, p, l2, heq, -, -⟩
        exact absurd heq.symm (List.append_ne_nil_of_right_ne_nil _ (by simp))
  | cons c rest ih =>
      obtain ⟨arr, dt, sh⟩ := c
      by_cases h1 : arr.dtype = dt
      · by_cases h2 : shapeCompatible sh (concreteShape arr.shape) = true
        · rw [check_components_cons_ok arr dt sh rest h1 h2, ih]
          constructor
          · rintro ⟨l1, p, l2, heq, hok, hbad⟩
            refine ⟨(arr, dt, sh) :: l1, p, l2, by rw [heq]; rfl, ?_, hbad⟩
            intro q hq
            rcases List.mem_cons.mp hq with hq | hq
            · subst hq
              exact ⟨h1, h2⟩
            · exact hok q hq
          · rintro ⟨l1, p, l2, heq, hok, hbad⟩
            cases l1 with
            | nil =>
                simp only [List.nil_append, List.cons.injEq] at heq
                obtain ⟨hp, -⟩ := heq
                rw [← hp] at hbad
                rw [hbad.2] at h2
                exact absurd h2 (by decide)
            | cons q l1 =>
                simp only [List.cons_append, List.cons.injEq] at heq
                obtain ⟨hq, hrest⟩ := heq
                exact ⟨l1, p, l2, hrest,
                  fun r hr => hok r (List.mem_cons_of_mem _ hr), hbad⟩
        · rw [check_components_cons_shapeErr arr dt sh rest h1 h2]
          constructor
          · intro _
            refine ⟨[], (arr, dt, sh), rest, rfl, by simp, h1, ?_⟩
            simpa using h2
          · intro _
            rfl
      · rw [check_components_cons_typeErr arr dt sh rest h1]
        constructor
        · intro hc
          simp at hc
        · rintro ⟨l1, p, l2, heq, hok, hbad⟩
          cases l1 with
          | nil =>
              simp only [List.nil_append, List.cons.injEq] at heq
              obtain ⟨hp, -⟩ := heq
              rw [← hp] at hbad
              exact absurd hbad.1 h1
          | cons q l1 =>
              simp only [List.cons_append, List.cons.injEq] at heq
              obtain ⟨hq, -⟩ := heq
              subst hq
              exact absurd (hok (arr, dt, sh) (List.mem_cons_self _ _)).1 h1

/-! ## Claim C5 -/

/-- C5, confirmed: on every pull (any multiplexer state, hence not only the
first element), each flattened component of a generated element is checked in
order against the declared `output_types` and `output_shapes`: validation
succeeds and returns the element unchanged exactly when every component's
dtype equals the declared dtype and the declared shape is compatible with the
produced shape; the first failing component determines the error, a dtype
disagreement raising the type-mismatch kind (`TypeError`) and a shape
incompatibility the distinct shape-mismatch kind (`ValueError`); and whatever
`generator_py_func` returns successfully is exactly the element the
identifier's producer invocation yielded, validated. -/
theorem C5_generator_validation (ts : List DType) (ss : List TensorShape)
    (arrs : List NpArray) :
    (validate_element ts ss arrs = .ok arrs ↔
       ∀ p ∈ List.zip arrs (List.zip ts ss),
         p.1.dtype = p.2.1 ∧ shapeCompatible p.2.2 (concreteShape p.1.shape) = true) ∧
    (validate_element ts ss arrs = .error .typeMismatch ↔
       ∃ l1 p l2, List.zip arrs (List.zip ts ss) = l1 ++ p :: l2 ∧
         (∀ q ∈ l1, q.1.dtype = q.2.1 ∧
            shapeCompatible q.2.2 (concreteShape q.1.shape) = true) ∧
         p.1.dtype ≠ p.2.1) ∧
    (validate_element ts ss arrs = .error .shapeMismatch ↔
       ∃ l1 p l2, List.zip arrs (List.zip ts ss) = l1 ++ p :: l2 ∧
         (∀ q ∈ l1, q.1.dtype = q.2.1 ∧
            shapeCompatible q.2.2 (concreteShape q.1.shape) = true) ∧
         p.1.dtype = p.2.1 ∧
         shapeCompatible p.2.2 (concreteShape p.1.shape) = false) ∧
    (∀ v, validate_element ts ss arrs = .ok v → v = arrs) ∧
    (∀ s : GeneratorState (List NpArray), ∀ id v s',
       generator_py_func ts ss s id = (.ok v, s') →
       validate_element ts ss v = .ok v ∧
       ∃ rest, (get_iterator s id).1 = v :: rest) := by
  have hok : ∀ a : List NpArray,
      validate_element ts ss a = .ok a ↔
        check_components (List.zip a (List.zip ts ss)) = .ok () := by
    intro a
    unfold validate_element
    cases hck : check_components (List.zip a (List.zip ts ss)) with
    | ok u =>
        cases u
        simp
    | error e => simp
  have herr : ∀ e, validate_element ts ss arrs = .error e ↔
      check_components (List.zip arrs (List.zip ts ss)) = .error e := by
    intro e
    unfold validate_element
    cases hck : check_components (List.zip arrs (List.zip ts ss)) with
    | ok u =>
        cases u
        simp
    | error e2 => simp
  have hveq : ∀ (a v : List NpArray), validate_element ts ss a = .ok v → v = a := by
    intro a v h
    unfold validate_element at h
    cases hck : check_components (List.zip a (List.zip ts ss)) with
    | ok u =>
        cases u
        rw [hck] at h
        injection h with h
        exact h.symm
    | error e =>
        rw [hck] at h
        cases h
  refine ⟨?_, ?_, ?_, hveq arrs, ?_⟩
  · rw [hok arrs, check_components_ok_iff]
  · rw [herr .typeMismatch, check_components_type_iff]
  · rw [herr .shapeMismatch, check_components_shape_iff]
  · intro s id v s' hrun
    unfold generator_py_func at hrun
    rcases hgi : get_iterator s id with ⟨it, s1⟩
    simp only [generator_pull_next, hgi] at hrun
    cases it with
    | nil => simp at hrun
    | cons x rest =>
        simp only [Prod.mk.injEq] at hrun
        have hv : validate_element ts ss x = .ok v := hrun.1
        have hvx : v = x := hveq x v hv
        subst hvx
        exact ⟨hv, rest, rfl⟩

/-- Witness for `C5_generator_validation`: a single-component element whose
dtype matches and whose concrete shape `[4]` is compatible with the declared
shape `[None]`. -/
theorem C5_generator_validation_witness :
    validate_element [DType.int64] [⟨some [none]⟩]
        [⟨DType.int64, [4], [9, 9, 9, 9]⟩]
      = .ok [⟨DType.int64, [4], [9, 9, 9, 9]⟩] :=
  (C5_generator_validation [DType.int64] [⟨some [none]⟩]
      [⟨DType.int64, [4], [9, 9, 9, 9]⟩]).1.mpr (by decide)
